import Mathlib

/-!
Shallow embedding of the billing-event reconciliation and usage-metering engine
of the ezrealtorapp repository (app/config/plan_limits.py,
app/services/usage_tracker.py, app/services/stripe_webhook.py,
app/services/twilio_phone_provisioning.py, app/api/stripe_webhook.py,
app/models/agent.py), together with theorems settling the frozen claims.

Conventions: timestamps are integer seconds, money-free counters are Nat,
percentages are exact rationals, Python dicts keyed by strings are association
lists, and the tenant database is a list of Agent records where
scalar_one_or_none is the first match.
-/

namespace EzRealtor

/-- Tenant record (app/models/agent.py, table agents). Branding and
presentation columns are omitted; the usage_* columns are the ones read and
written by UsageTracker (they live on the agents table even though agent.py
does not declare them). plan_tier holds a PlanTier value
("trial"/"starter"/"growth"/"scale"/"pro"); status holds an AgentStatus value
("active"/"past_due"/"cancelled"). -/
structure Agent where
  email : String
  name : String
  slug : String
  plan_tier : String
  status : String
  stripe_customer_id : Option String := none
  stripe_subscription_id : Option String := none
  subscription_end_date : Option Int := none
  twilio_phone_number : Option String := none
  twilio_phone_sid : Option String := none
  twilio_phone_status : Option String := none
  twilio_phone_activated_at : Option Int := none
  twilio_phone_friendly_name : Option String := none
  usage_voice_minutes_month : Nat := 0
  usage_sms_count_month : Nat := 0
  usage_email_count_month : Nat := 0
  usage_voicemail_count_month : Nat := 0
  usage_reset_date : Option Int := none
  usage_last_warning_sent : Option Int := none
deriving DecidableEq

/-- Numeric entries of PLAN_LIMITS[PlanTier.TRIAL] (plan_limits.py). -/
def trialLimits : List (String × Nat) :=
  [("leads_per_month", 50), ("voice_minutes_per_month", 15),
   ("sms_per_month", 50), ("emails_per_month", 100),
   ("voicemail_transcriptions_per_month", 10), ("ai_tokens_per_month", 150000)]

/-- Numeric entries of PLAN_LIMITS[PlanTier.STARTER]. -/
def starterLimits : List (String × Nat) :=
  [("leads_per_month", 150), ("voice_minutes_per_month", 100),
   ("sms_per_month", 150), ("emails_per_month", 500),
   ("voicemail_transcriptions_per_month", 30), ("ai_tokens_per_month", 300000)]

/-- Numeric entries of PLAN_LIMITS[PlanTier.GROWTH]. -/
def growthLimits : List (String × Nat) :=
  [("leads_per_month", 500), ("voice_minutes_per_month", 300),
   ("sms_per_month", 500), ("emails_per_month", 1500),
   ("voicemail_transcriptions_per_month", 100), ("ai_tokens_per_month", 1500000)]

/-- Numeric entries of PLAN_LIMITS[PlanTier.SCALE]. -/
def scaleLimits : List (String × Nat) :=
  [("leads_per_month", 1500), ("voice_minutes_per_month", 1000),
   ("sms_per_month", 1500), ("emails_per_month", 5000),
   ("voicemail_transcriptions_per_month", 300), ("ai_tokens_per_month", 3000000)]

/-- Numeric entries of PLAN_LIMITS[PlanTier.PRO]. -/
def proLimits : List (String × Nat) :=
  [("leads_per_month", 4000), ("voice_minutes_per_month", 3000),
   ("sms_per_month", 5000), ("emails_per_month", 15000),
   ("voicemail_transcriptions_per_month", 1000), ("ai_tokens_per_month", 10000000)]

/-- The PLAN_LIMITS table of plan_limits.py, numeric limits only (the boolean
feature flags and daily sub-caps are not consulted by any embedded code path). -/
def PLAN_LIMITS : List (String × List (String × Nat)) :=
  [("trial", trialLimits), ("starter", starterLimits), ("growth", growthLimits),
   ("scale", scaleLimits), ("pro", proLimits)]

/-- Python dict.get(key, default) over an association list. -/
def dictGetNat (d : List (String × Nat)) (key : String) (dflt : Nat) : Nat :=
  match d.find? (fun kv => kv.1 == key) with
  | some kv => kv.2
  | none => dflt

/-- get_plan_limits (plan_limits.py): unknown tiers fall back to the trial table. -/
def get_plan_limits (plan_tier : String) : List (String × Nat) :=
  match PLAN_LIMITS.find? (fun kv => kv.1 == plan_tier) with
  | some kv => kv.2
  | none => trialLimits

/-- get_limit_for_metric (plan_limits.py): dict.get with default 0. -/
def get_limit_for_metric (plan_tier metric : String) : Nat :=
  dictGetNat (get_plan_limits plan_tier) metric 0

/-- calculate_usage_percentage (plan_limits.py): guarded division, as a percent. -/
def calculate_usage_percentage (current limit : Nat) : ℚ :=
  if limit = 0 then 0 else ((current : ℚ) / (limit : ℚ)) * 100

/-- should_send_warning (plan_limits.py): highest crossed threshold must be
strictly above the supplied last-warning threshold. -/
def should_send_warning (usage_percentage last_warning_threshold : ℚ) :
    Bool × String :=
  if 95 ≤ usage_percentage ∧ last_warning_threshold < 95 then (true, "critical")
  else if 90 ≤ usage_percentage ∧ last_warning_threshold < 90 then
    (true, "hard_warning")
  else if 70 ≤ usage_percentage ∧ last_warning_threshold < 70 then
    (true, "soft_warning")
  else (false, "none")

/-- One day of seconds; timedelta(days=30) is 30 * 86400. -/
def secondsPerDay : Int := 86400

/-- UsageTracker._check_and_reset_usage (usage_tracker.py lines 141-159):
when a reset date exists and is not in the future, zero the four monthly
counters, set the next reset date to now plus 30 days, and clear the
last-warning timestamp. -/
def check_and_reset_usage (now : Int) (agent : Agent) : Agent :=
  match agent.usage_reset_date with
  | some d =>
    if d ≤ now then
      { agent with
          usage_voice_minutes_month := 0
          usage_sms_count_month := 0
          usage_email_count_month := 0
          usage_voicemail_count_month := 0
          usage_reset_date := some (now + 30 * secondsPerDay)
          usage_last_warning_sent := none }
    else agent
  | none => agent

/-- UsageTracker._get_current_usage: metric_map.get(metric, 0). -/
def get_current_usage (agent : Agent) (metric : String) : Nat :=
  if metric = "voice_minutes" then agent.usage_voice_minutes_month
  else if metric = "sms" then agent.usage_sms_count_month
  else if metric = "email" then agent.usage_email_count_month
  else if metric = "voicemail" then agent.usage_voicemail_count_month
  else 0

/-- UsageTracker._increment_usage: unknown metrics are logged and ignored. -/
def increment_usage (agent : Agent) (metric : String) (amount : Nat) : Agent :=
  if metric = "voice_minutes" then
    { agent with usage_voice_minutes_month :=
        agent.usage_voice_minutes_month + amount }
  else if metric = "sms" then
    { agent with usage_sms_count_month := agent.usage_sms_count_month + amount }
  else if metric = "email" then
    { agent with usage_email_count_month :=
        agent.usage_email_count_month + amount }
  else if metric = "voicemail" then
    { agent with usage_voicemail_count_month :=
        agent.usage_voicemail_count_month + amount }
  else agent

/-- UsageTracker._get_last_warning_percentage (usage_tracker.py lines 192-203):
no recorded per-metric watermark exists; the value is 70 when any warning was
sent less than 3600 seconds ago and 0 otherwise. -/
def get_last_warning_percentage (now : Int) (agent : Agent) : ℚ :=
  match agent.usage_last_warning_sent with
  | none => 0
  | some t => if now - t < 3600 then 70 else 0

/-- Result of UsageTracker.check_and_increment: the persisted agent state, the
(allowed, error?) pair, and whether _send_usage_warning ran and at what level. -/
structure CheckResult where
  agent : Agent
  allowed : Bool
  warned : Bool
  warning_level : String
deriving DecidableEq

/-- UsageTracker.check_and_increment (usage_tracker.py lines 37-96): lazy
rollover, limit guard against get_limit_for_metric(tier, metric ++
"_per_month"), increment, then the warning check; _send_usage_warning stores
the current time as usage_last_warning_sent. The rejection path mutates
nothing (the limit-exceeded notification only logs). -/
def check_and_increment (now : Int) (agent : Agent) (metric : String)
    (amount : Nat) : CheckResult :=
  let a := check_and_reset_usage now agent
  let current_usage := get_current_usage a metric
  let limit := get_limit_for_metric a.plan_tier (metric ++ "_per_month")
  if limit < current_usage + amount then
    { agent := a, allowed := false, warned := false, warning_level := "none" }
  else
    let a2 := increment_usage a metric amount
    let new_usage := current_usage + amount
    let usage_percentage := calculate_usage_percentage new_usage limit
    let last_warning_pct := get_last_warning_percentage now a2
    let sw := should_send_warning usage_percentage last_warning_pct
    let a3 := if sw.1 then { a2 with usage_last_warning_sent := some now }
              else a2
    { agent := a3, allowed := true, warned := sw.1, warning_level := sw.2 }

/-- One per-metric block of the get_usage_stats response. -/
structure MetricStats where
  current : Nat
  limit : Nat
  percentage : ℚ
deriving DecidableEq

/-- The get_usage_stats response (usage_tracker.py lines 98-139). -/
structure UsageStats where
  voice_minutes : MetricStats
  sms : MetricStats
  email : MetricStats
  voicemail : MetricStats
  reset_date : Option Int
  plan_tier : String
deriving DecidableEq

/-- UsageTracker.get_usage_stats: same lazy rollover, then per metric
(current, limit, percentage); the displayed limit defaults to 0 while the
percentage divisor defaults to 1, exactly as in the source. -/
def get_usage_stats (now : Int) (agent : Agent) : UsageStats :=
  let a := check_and_reset_usage now agent
  let limits := get_plan_limits a.plan_tier
  { voice_minutes :=
      { current := a.usage_voice_minutes_month
        limit := dictGetNat limits "voice_minutes_per_month" 0
        percentage := calculate_usage_percentage a.usage_voice_minutes_month
          (dictGetNat limits "voice_minutes_per_month" 1) }
    sms :=
      { current := a.usage_sms_count_month
        limit := dictGetNat limits "sms_per_month" 0
        percentage := calculate_usage_percentage a.usage_sms_count_month
          (dictGetNat limits "sms_per_month" 1) }
    email :=
      { current := a.usage_email_count_month
        limit := dictGetNat limits "emails_per_month" 0
        percentage := calculate_usage_percentage a.usage_email_count_month
          (dictGetNat limits "emails_per_month" 1) }
    voicemail :=
      { current := a.usage_voicemail_count_month
        limit := dictGetNat limits "voicemail_transcriptions_per_month" 0
        percentage := calculate_usage_percentage a.usage_voicemail_count_month
          (dictGetNat limits "voicemail_transcriptions_per_month" 1) }
    reset_date := a.usage_reset_date
    plan_tier := a.plan_tier }

/-- The four metrics check_and_increment actually tracks (both metric_maps of
usage_tracker.py). -/
def tracked_metrics : List String := ["voice_minutes", "sms", "email", "voicemail"]

/-- data.object of a customer.subscription.* event: subscription id, customer
reference, the price id of the first line item, the Stripe subscription status,
and period/cancellation timestamps. -/
structure SubData where
  id : String
  customer : String
  price_id : String
  sub_status : String
  current_period_end : Int
  canceled_at : Option Int := none
deriving DecidableEq

/-- data.object of an invoice.* event. -/
structure InvoiceData where
  id : String
  subscription : Option String := none
deriving DecidableEq

/-- data.object of a customer.updated event. -/
structure CustomerData where
  id : String
  email : Option String := none
deriving DecidableEq

/-- A verified Stripe event: external event id, type, nominal creation
timestamp, and the payloads the handlers read (only the one matching the type
is consulted). -/
structure BillingEvent where
  id : String
  type : String
  created : Int
  subData : SubData
  invData : InvoiceData
  custData : CustomerData
deriving DecidableEq

/-- StripeWebhookHandler._get_plan_from_price_id (stripe_webhook.py lines
360-370). The five configured price ids are deployment environment values,
modelled by the symbolic strings below; every unknown price id falls open to
the trial tier. -/
def get_plan_from_price_id (price_id : String) : String :=
  if price_id = "STRIPE_FreeTrial_PRICE_ID" then "trial"
  else if price_id = "STRIPE_Starter_PRICE_ID" then "starter"
  else if price_id = "STRIPE_Growth_PRICE_ID" then "growth"
  else if price_id = "STRIPE_Scale_PRICE_ID" then "scale"
  else if price_id = "STRIPE_Pro_PRICE_ID" then "pro"
  else "trial"

/-- The plans whose purchase triggers automatic phone provisioning
(stripe_webhook.py lines 115 and 168). -/
def phone_included_tiers : List String := ["starter", "growth", "scale", "pro"]

/-- The status mapping of handle_subscription_updated (lines 154-159): any
Stripe status outside the three recognised groups leaves the stored status
unchanged. -/
def subscription_status_to_agent_status (sub_status old : String) : String :=
  if sub_status = "active" then "active"
  else if sub_status = "past_due" ∨ sub_status = "unpaid" then "past_due"
  else if sub_status = "canceled" ∨ sub_status = "incomplete_expired" then
    "cancelled"
  else old

/-- Environment of the external provisioning provider together with the fate
of the local commit inside _auto_provision_phone_number: the candidate list
returned by TwilioPhoneProvisioningService.search_available_numbers, whether
purchase_phone_number succeeds, and whether the database commit of the
assignment succeeds. -/
structure ProvisionEnv where
  available_numbers : List String
  purchase_ok : Bool
  commit_ok : Bool
deriving DecidableEq

/-- Outcome of _auto_provision_phone_number: the persisted agent record,
whether a number was acquired from the provider, whether a compensating
release was issued, and the reported status. -/
structure ProvisionResult where
  agent : Agent
  purchased : Bool
  released : Bool
  status : String
deriving DecidableEq

/-- StripeWebhookHandler._auto_provision_phone_number (stripe_webhook.py lines
404-463): skip when a number exists, search, purchase the first candidate,
then update the agent record and commit. Every exception (including a commit
failure after the purchase) is caught and returned as an error result; the
source contains no release call on that path, so the purchase stands while
the local assignment is rolled back. -/
def auto_provision_phone_number (env : ProvisionEnv) (now : Int)
    (agent : Agent) : ProvisionResult :=
  if agent.twilio_phone_number.isSome then
    { agent := agent, purchased := false, released := false, status := "skipped" }
  else
    match env.available_numbers with
    | [] => { agent := agent, purchased := false, released := false,
              status := "error" }
    | n :: _ =>
      if env.purchase_ok = false then
        { agent := agent, purchased := false, released := false,
          status := "error" }
      else if env.commit_ok then
        { agent :=
            { agent with
                twilio_phone_number := some n
                twilio_phone_sid := some (String.append "sid_" n)
                twilio_phone_status := some "active"
                twilio_phone_activated_at := some now
                twilio_phone_friendly_name :=
                  some (String.append "EZRealtor - " agent.name) }
          purchased := true, released := false, status := "success" }
      else
        { agent := agent, purchased := true, released := false,
          status := "error" }

/-- The per-request result dict assembled by the handlers: its status field
("success" / "warning" / "error" / "ignored") and action tag. -/
structure HandlerResult where
  status : String
  action : String := ""
deriving DecidableEq

/-- A handler run: the tenant table afterwards, the result dict, and whether a
tenant-state commit was executed (the observable for idempotency claims). -/
structure HandlerOutcome where
  db : List Agent
  result : HandlerResult
  mutated : Bool
deriving DecidableEq

/-- SQLAlchemy scalar_one_or_none followed by mutating the fetched row:
replace the first record satisfying the predicate. -/
def update_first (p : Agent → Bool) (f : Agent → Agent) :
    List Agent → List Agent
  | [] => []
  | a :: rest => if p a then f a :: rest else a :: update_first p f rest

/-- The record assignment of handle_subscription_created (lines 103-108):
subscription id, plan tier resolved from the price id, status active, period
end from the event. -/
def created_update (e : BillingEvent) (agent : Agent) : Agent :=
  { agent with
      stripe_subscription_id := some e.subData.id
      plan_tier := get_plan_from_price_id e.subData.price_id
      status := "active"
      subscription_end_date := some e.subData.current_period_end }

/-- The full per-record effect of handle_subscription_created: the assignment
above followed by automatic phone provisioning for paid tiers (lines 113-117). -/
def created_assign (env : ProvisionEnv) (now : Int) (e : BillingEvent)
    (agent : Agent) : Agent :=
  if phone_included_tiers.contains (get_plan_from_price_id e.subData.price_id)
  then (auto_provision_phone_number env now (created_update e agent)).agent
  else created_update e agent

/-- StripeWebhookHandler.handle_subscription_created (lines 86-127): resolve
the agent by customer id, apply created_assign to it, commit. -/
def handle_subscription_created (env : ProvisionEnv) (now : Int)
    (e : BillingEvent) (db : List Agent) : HandlerOutcome :=
  let s := e.subData
  match db.find? (fun a => a.stripe_customer_id == some s.customer) with
  | some _ =>
    { db := update_first (fun a => a.stripe_customer_id == some s.customer)
        (created_assign env now e) db
      result := { status := "success", action := "subscription_created" }
      mutated := true }
  | none => { db := db, result := { status := "warning" }, mutated := false }

/-- The record assignment of handle_subscription_updated (lines 145-159):
overwrite plan tier and period end and map the Stripe subscription status
onto the stored status. -/
def updated_update (e : BillingEvent) (agent : Agent) : Agent :=
  { agent with
      plan_tier := get_plan_from_price_id e.subData.price_id
      subscription_end_date := some e.subData.current_period_end
      status := subscription_status_to_agent_status e.subData.sub_status
        agent.status }

/-- The full per-record effect of handle_subscription_updated: the assignment
above followed by provisioning when the new tier includes a phone number and
the agent holds none (lines 166-171). -/
def updated_assign (env : ProvisionEnv) (now : Int) (e : BillingEvent)
    (agent : Agent) : Agent :=
  if phone_included_tiers.contains (get_plan_from_price_id e.subData.price_id)
      ∧ (updated_update e agent).twilio_phone_number = none
  then (auto_provision_phone_number env now (updated_update e agent)).agent
  else updated_update e agent

/-- StripeWebhookHandler.handle_subscription_updated (lines 129-184): resolve
the agent by subscription id, apply updated_assign to it, commit. No
timestamp of the event is consulted anywhere on this path. -/
def handle_subscription_updated (env : ProvisionEnv) (now : Int)
    (e : BillingEvent) (db : List Agent) : HandlerOutcome :=
  let s := e.subData
  match db.find? (fun a => a.stripe_subscription_id == some s.id) with
  | some _ =>
    { db := update_first (fun a => a.stripe_subscription_id == some s.id)
        (updated_assign env now e) db
      result := { status := "success", action := "subscription_updated" }
      mutated := true }
  | none => { db := db, result := { status := "warning" }, mutated := false }

/-- StripeWebhookHandler.handle_subscription_cancelled (lines 186-219). -/
def handle_subscription_cancelled (now : Int) (e : BillingEvent)
    (db : List Agent) : HandlerOutcome :=
  let s := e.subData
  match db.find? (fun a => a.stripe_subscription_id == some s.id) with
  | some _ =>
    { db := update_first (fun a => a.stripe_subscription_id == some s.id)
        (fun agent =>
          { agent with
              status := "cancelled"
              plan_tier := "trial"
              subscription_end_date :=
                some (match s.canceled_at with | some t => t | none => now) })
        db
      result := { status := "success", action := "subscription_cancelled" }
      mutated := true }
  | none => { db := db, result := { status := "warning" }, mutated := false }

/-- StripeWebhookHandler.handle_payment_succeeded (lines 221-242): a bulk
UPDATE setting every row with the subscription id to active. -/
def handle_payment_succeeded (e : BillingEvent) (db : List Agent) :
    HandlerOutcome :=
  match e.invData.subscription with
  | some sid =>
    { db := db.map (fun a =>
        if a.stripe_subscription_id == some sid then
          { a with status := "active" }
        else a)
      result := { status := "success", action := "payment_succeeded" }
      mutated := true }
  | none =>
    { db := db
      result := { status := "success", action := "payment_succeeded" }
      mutated := false }

/-- StripeWebhookHandler.handle_payment_failed (lines 244-270): mark the
matching agent past_due; nothing else on the record is touched. -/
def handle_payment_failed (e : BillingEvent) (db : List Agent) :
    HandlerOutcome :=
  match e.invData.subscription with
  | some sid =>
    match db.find? (fun a => a.stripe_subscription_id == some sid) with
    | some _ =>
      { db := update_first (fun a => a.stripe_subscription_id == some sid)
          (fun a => { a with status := "past_due" }) db
        result := { status := "success", action := "payment_failed" }
        mutated := true }
    | none =>
      { db := db
        result := { status := "success", action := "payment_failed" }
        mutated := false }
  | none =>
    { db := db
      result := { status := "success", action := "payment_failed" }
      mutated := false }

/-- StripeWebhookHandler.handle_customer_updated (lines 336-358): copy a
changed email onto the agent record. -/
def handle_customer_updated (e : BillingEvent) (db : List Agent) :
    HandlerOutcome :=
  let c := e.custData
  match db.find? (fun a => a.stripe_customer_id == some c.id) with
  | some agent =>
    match c.email with
    | some mail =>
      if mail ≠ agent.email then
        { db := update_first (fun a => a.stripe_customer_id == some c.id)
            (fun a => { a with email := mail }) db
          result := { status := "success", action := "customer_updated" }
          mutated := true }
      else
        { db := db
          result := { status := "success", action := "customer_updated" }
          mutated := false }
    | none =>
      { db := db
        result := { status := "success", action := "customer_updated" }
        mutated := false }
  | none =>
    { db := db
      result := { status := "success", action := "customer_updated" }
      mutated := false }

/-- StripeWebhookHandler.handle_event (stripe_webhook.py lines 44-84): pure
routing on the event type; no event id is recorded or looked up anywhere, so
there is no idempotency ledger. Internal exceptions are caught and reported
through the result status, never raised to the endpoint. The trial-ending,
checkout-completed and payment-action-required handlers perform no tenant
mutation (notification or pass only). -/
def handle_event (env : ProvisionEnv) (now : Int) (e : BillingEvent)
    (db : List Agent) : HandlerOutcome :=
  if e.type = "customer.subscription.created" then
    handle_subscription_created env now e db
  else if e.type = "customer.subscription.updated" then
    handle_subscription_updated env now e db
  else if e.type = "customer.subscription.deleted" then
    handle_subscription_cancelled now e db
  else if e.type = "invoice.payment_succeeded" then
    handle_payment_succeeded e db
  else if e.type = "invoice.payment_failed" then
    handle_payment_failed e db
  else if e.type = "customer.subscription.trial_will_end" then
    { db := db
      result := { status := "success", action := "trial_ending_notice" }
      mutated := false }
  else if e.type = "checkout.session.completed" then
    { db := db
      result := { status := "success", action := "checkout_completed" }
      mutated := false }
  else if e.type = "invoice.payment_action_required" then
    { db := db
      result := { status := "success", action := "payment_action_required" }
      mutated := false }
  else if e.type = "customer.updated" then
    handle_customer_updated e db
  else
    { db := db, result := { status := "ignored" }, mutated := false }

/-- An inbound webhook request as the endpoint sees it: whether the
stripe-signature header is present, whether the signature verifies against the
shared secret, whether the body parses into an event, and that event. The
external stripe library contract (stripe.Webhook.construct_event) checks the
signature before parsing the payload. -/
structure WebhookRequest where
  has_signature : Bool
  signature_valid : Bool
  payload_parses : Bool
  event : BillingEvent
deriving DecidableEq

/-- Response of the endpoint: HTTP 200 acknowledgement carrying the internal
result status, or one of the three HTTP 400 rejections raised before any
processing. -/
inductive WebhookResponse where
  | ok (resultStatus : String)
  | missingSignature
  | invalidSignature
  | invalidPayload
deriving DecidableEq

/-- Whether a response is the HTTP 200 acknowledgement. -/
def WebhookResponse.isOk : WebhookResponse → Bool
  | .ok _ => true
  | _ => false

/-- Whether a response reports that the authenticity proof could not be
verified (missing or invalid signature). -/
def WebhookResponse.isAuthFailure : WebhookResponse → Bool
  | .missingSignature => true
  | .invalidSignature => true
  | _ => false

/-- The stripe_webhook endpoint (api/stripe_webhook.py lines 17-67) composed
with verify_webhook_signature (services/stripe_webhook.py lines 31-42):
reject a missing header, an unverifiable signature, or an unparsable payload
with HTTP 400, and otherwise acknowledge with HTTP 200 whatever the internal
outcome — the endpoint catches every processing exception and still returns
200. -/
def stripe_webhook (env : ProvisionEnv) (now : Int) (req : WebhookRequest)
    (db : List Agent) : WebhookResponse × List Agent :=
  if req.has_signature = false then (WebhookResponse.missingSignature, db)
  else if req.signature_valid = false then (WebhookResponse.invalidSignature, db)
  else if req.payload_parses = false then (WebhookResponse.invalidPayload, db)
  else
    let o := handle_event env now req.event db
    (WebhookResponse.ok o.result.status, o.db)

/-! Concrete instances used by the counterexamples and witnesses below. -/

/-- A trial-tier tenant with every tracked counter at 49 and a rollover far in
the future. -/
def agentAt49 : Agent :=
  { email := "jo@example.com", name := "Jo Realtor", slug := "jo",
    plan_tier := "trial", status := "active",
    usage_voice_minutes_month := 49, usage_sms_count_month := 49,
    usage_email_count_month := 49, usage_voicemail_count_month := 49,
    usage_reset_date := some 999999999 }

/-- A trial-tier tenant with 47 SMS used and no warning recorded yet. -/
def agentSms47 : Agent :=
  { email := "jo@example.com", name := "Jo Realtor", slug := "jo",
    plan_tier := "trial", status := "active",
    usage_sms_count_month := 47, usage_reset_date := some 999999999 }

/-- A trial-tier tenant with 48 SMS used whose last warning was recorded at
time 0. -/
def agentSms48Warned : Agent :=
  { email := "jo@example.com", name := "Jo Realtor", slug := "jo",
    plan_tier := "trial", status := "active",
    usage_sms_count_month := 48, usage_reset_date := some 999999999,
    usage_last_warning_sent := some 0 }

/-- A starter-tier tenant whose period ended at time 0 with nonzero counters. -/
def agentDueReset : Agent :=
  { email := "jo@example.com", name := "Jo Realtor", slug := "jo",
    plan_tier := "starter", status := "active",
    usage_sms_count_month := 7, usage_email_count_month := 3,
    usage_reset_date := some 0 }

/-- An active growth-tier tenant holding subscription sub_1. -/
def agentGrowthSub : Agent :=
  { email := "jo@example.com", name := "Jo Realtor", slug := "jo",
    plan_tier := "growth", status := "active",
    stripe_customer_id := some "cus_1",
    stripe_subscription_id := some "sub_1",
    subscription_end_date := some 2000 }

/-- A trial-tier tenant known to Stripe as customer cus_1, no phone number. -/
def agentCus1 : Agent :=
  { email := "jo@example.com", name := "Jo Realtor", slug := "jo",
    plan_tier := "trial", status := "active",
    stripe_customer_id := some "cus_1" }

/-- Unused payload placeholder. -/
def subData0 : SubData :=
  { id := "", customer := "", price_id := "", sub_status := "",
    current_period_end := 0 }

/-- Unused payload placeholder. -/
def invData0 : InvoiceData := { id := "" }

/-- Unused payload placeholder. -/
def custData0 : CustomerData := { id := "" }

/-- Payload of the subscription events below: subscription sub_1 of customer
cus_1 on the free-trial price. -/
def subTrial : SubData :=
  { id := "sub_1", customer := "cus_1",
    price_id := "STRIPE_FreeTrial_PRICE_ID", sub_status := "active",
    current_period_end := 2000 }

/-- Subscription sub_1 of customer cus_1 on the growth price, period
end 2000. -/
def subGrowth : SubData :=
  { id := "sub_1", customer := "cus_1",
    price_id := "STRIPE_Growth_PRICE_ID", sub_status := "active",
    current_period_end := 2000 }

/-- Subscription sub_1 of customer cus_1 on the starter price, period
end 1000. -/
def subStarter : SubData :=
  { id := "sub_1", customer := "cus_1",
    price_id := "STRIPE_Starter_PRICE_ID", sub_status := "active",
    current_period_end := 1000 }

/-- A subscription-created event (id evt_1) putting customer cus_1 on the
free-trial price. -/
def evtCreatedTrial : BillingEvent :=
  { id := "evt_1", type := "customer.subscription.created", created := 1000,
    subData := subTrial, invData := invData0, custData := custData0 }

/-- A subscription-updated event carrying the growth price, nominal
timestamp 2000. -/
def evtUpdGrowth : BillingEvent :=
  { id := "evt_new", type := "customer.subscription.updated", created := 2000,
    subData := subGrowth, invData := invData0, custData := custData0 }

/-- A stale subscription-updated event carrying the starter price, nominal
timestamp 1000 (older than evtUpdGrowth). -/
def evtUpdStale : BillingEvent :=
  { id := "evt_old", type := "customer.subscription.updated", created := 1000,
    subData := subStarter, invData := invData0, custData := custData0 }

/-- Payload of evtPayFailed: invoice in_1 of subscription sub_1. -/
def invSub1 : InvoiceData := { id := "in_1", subscription := some "sub_1" }

/-- An invoice.payment_failed event for subscription sub_1. -/
def evtPayFailed : BillingEvent :=
  { id := "evt_pf", type := "invoice.payment_failed", created := 3000,
    subData := subData0, invData := invSub1, custData := custData0 }

/-- A provider environment with no candidate numbers (provisioning is then a
no-op error and the tenant table is untouched by it). -/
def envNoNumbers : ProvisionEnv :=
  { available_numbers := [], purchase_ok := true, commit_ok := true }

/-- A provider environment where the purchase succeeds but the local commit of
the assignment fails. -/
def envCommitFails : ProvisionEnv :=
  { available_numbers := ["+15550001111"], purchase_ok := true,
    commit_ok := false }

end EzRealtor

/-! Helper lemmas shared by several claims. -/

namespace EzRealtor

/-- Lazy rollover never changes the plan tier. -/
theorem check_and_reset_usage_plan_tier (now : Int) (a : Agent) :
    (check_and_reset_usage now a).plan_tier = a.plan_tier := by
  unfold check_and_reset_usage
  cases a.usage_reset_date with
  | none => rfl
  | some d => by_cases h : d ≤ now <;> simp [h]

/-- Incrementing a counter never touches the last-warning timestamp. -/
theorem increment_usage_last_warning (a : Agent) (metric : String)
    (amount : Nat) :
    (increment_usage a metric amount).usage_last_warning_sent =
      a.usage_last_warning_sent := by
  unfold increment_usage
  repeat' split
  all_goals rfl

/-- Rollover is a no-op on an agent whose reset date lies in the future. -/
theorem check_and_reset_usage_noop (now : Int) (x : Agent) (D : Int)
    (h : x.usage_reset_date = some D) (hn : ¬ D ≤ now) :
    check_and_reset_usage now x = x := by
  simp [check_and_reset_usage, h, hn]

/-- After a due rollover the next reset date is 30 days after the current
time. -/
theorem check_and_reset_usage_date (now : Int) (a : Agent) (d : Int)
    (hd : a.usage_reset_date = some d) (h : d ≤ now) :
    (check_and_reset_usage now a).usage_reset_date =
      some (now + 30 * secondsPerDay) := by
  simp [check_and_reset_usage, hd, h]

/-- Lazy rollover is idempotent: a freshly rolled-over agent has its next
reset 30 days in the future, so a second check at the same time does nothing. -/
theorem check_and_reset_usage_idem (now : Int) (a : Agent) :
    check_and_reset_usage now (check_and_reset_usage now a) =
      check_and_reset_usage now a := by
  have hfuture : ¬ (now + 30 * secondsPerDay ≤ now) := by
    simp [secondsPerDay]
  cases hd : a.usage_reset_date with
  | none =>
    have h1 : check_and_reset_usage now a = a := by
      simp [check_and_reset_usage, hd]
    rw [h1, h1]
  | some d =>
    by_cases h : d ≤ now
    · exact check_and_reset_usage_noop now _ _
        (check_and_reset_usage_date now a d hd h) hfuture
    · have h1 : check_and_reset_usage now a = a :=
        check_and_reset_usage_noop now a d hd h
      rw [h1, h1]

/-- get_plan_limits always lands on one of the five catalog tables. -/
theorem get_plan_limits_cases (tier : String) :
    get_plan_limits tier = trialLimits ∨ get_plan_limits tier = starterLimits ∨
    get_plan_limits tier = growthLimits ∨ get_plan_limits tier = scaleLimits ∨
    get_plan_limits tier = proLimits := by
  cases h : PLAN_LIMITS.find? (fun kv => kv.1 == tier) with
  | none =>
    left
    unfold get_plan_limits
    rw [h]
  | some kv =>
    have hm := List.mem_of_find?_eq_some h
    have hv : kv.2 = trialLimits ∨ kv.2 = starterLimits ∨ kv.2 = growthLimits ∨
        kv.2 = scaleLimits ∨ kv.2 = proLimits := by
      simp only [PLAN_LIMITS, List.mem_cons, List.not_mem_nil, or_false] at hm
      rcases hm with rfl | rfl | rfl | rfl | rfl <;> simp
    have hg : get_plan_limits tier = kv.2 := by
      unfold get_plan_limits
      rw [h]
    rw [hg]
    exact hv

end EzRealtor

namespace EzRealtor

/-- Claim C6 counterexample: a tenant whose period ended at time 0, observed
at time 432000 (five days later), has its counters zeroed but its new period
end set to 3024000 = now + 30 days, not to 2592000 = old period end + one
30-day interval, so the period end is not advanced by exactly one cadence
interval. -/
theorem claim_C6_counterexample :
    (check_and_reset_usage 432000 agentDueReset).usage_sms_count_month = 0 ∧
    (check_and_reset_usage 432000 agentDueReset).usage_email_count_month = 0 ∧
    (check_and_reset_usage 432000 agentDueReset).usage_reset_date =
      some 3024000 ∧
    some (3024000 : Int) ≠ some ((0 : Int) + 30 * secondsPerDay) := by
  decide

/-- Claim C6 (amended): whenever check_and_increment or get_usage_stats runs
at a time at or past the tenant's period end, every per-metric counter is
reset to zero and the period end is set to exactly 30 days after the current
time (the code's monthly cadence, anchored at the observation time rather
than at the old period end) before the operation proceeds on the reset state. -/
theorem claim_C6_rollover (now : Int) (a : Agent) (d : Int) (metric : String)
    (amount : Nat) (hd : a.usage_reset_date = some d) (hle : d ≤ now) :
    (check_and_reset_usage now a).usage_voice_minutes_month = 0 ∧
    (check_and_reset_usage now a).usage_sms_count_month = 0 ∧
    (check_and_reset_usage now a).usage_email_count_month = 0 ∧
    (check_and_reset_usage now a).usage_voicemail_count_month = 0 ∧
    (check_and_reset_usage now a).usage_reset_date =
      some (now + 30 * secondsPerDay) ∧
    (check_and_reset_usage now a).usage_last_warning_sent = none ∧
    check_and_increment now a metric amount =
      check_and_increment now (check_and_reset_usage now a) metric amount ∧
    get_usage_stats now a = get_usage_stats now (check_and_reset_usage now a) := by
  have hidem := check_and_reset_usage_idem now a
  refine ⟨?_, ?_, ?_, ?_, ?_, ?_, ?_, ?_⟩
  · simp [check_and_reset_usage, hd, hle]
  · simp [check_and_reset_usage, hd, hle]
  · simp [check_and_reset_usage, hd, hle]
  · simp [check_and_reset_usage, hd, hle]
  · exact check_and_reset_usage_date now a d hd hle
  · simp [check_and_reset_usage, hd, hle]
  · simp only [check_and_increment, hidem]
  · simp only [get_usage_stats, hidem]

/-- Claim C6 witness: the amended rollover theorem applied to the tenant
agentDueReset at time 432000 for the sms metric. -/
theorem claim_C6_rollover_witness :
    agentDueReset.usage_reset_date = some 0 ∧ (0 : Int) ≤ 432000 ∧
    ((check_and_reset_usage 432000 agentDueReset).usage_voice_minutes_month = 0 ∧
     (check_and_reset_usage 432000 agentDueReset).usage_sms_count_month = 0 ∧
     (check_and_reset_usage 432000 agentDueReset).usage_email_count_month = 0 ∧
     (check_and_reset_usage 432000 agentDueReset).usage_voicemail_count_month = 0 ∧
     (check_and_reset_usage 432000 agentDueReset).usage_reset_date =
       some (432000 + 30 * secondsPerDay) ∧
     (check_and_reset_usage 432000 agentDueReset).usage_last_warning_sent = none ∧
     check_and_increment 432000 agentDueReset "sms" 1 =
       check_and_increment 432000 (check_and_reset_usage 432000 agentDueReset)
         "sms" 1 ∧
     get_usage_stats 432000 agentDueReset =
       get_usage_stats 432000 (check_and_reset_usage 432000 agentDueReset)) :=
  ⟨rfl, by decide,
   claim_C6_rollover 432000 agentDueReset 0 "sms" 1 rfl (by decide)⟩

/-- Claim C10: usage-percentage computation is total — it returns 0 whenever
the limit is 0 and the exact ratio times 100 otherwise (stated
multiplicatively to avoid relying on division semantics at 0), and the
divisors get_usage_stats feeds it (the plan tables looked up with default 1)
are positive for every tier string, so no division by zero can occur. -/
theorem claim_C10_percentage_total (current limit : Nat) (tier : String) :
    (limit = 0 → calculate_usage_percentage current limit = 0) ∧
    (limit ≠ 0 →
      calculate_usage_percentage current limit * (limit : ℚ) =
        (current : ℚ) * 100) ∧
    0 < dictGetNat (get_plan_limits tier) "voice_minutes_per_month" 1 ∧
    0 < dictGetNat (get_plan_limits tier) "sms_per_month" 1 ∧
    0 < dictGetNat (get_plan_limits tier) "emails_per_month" 1 ∧
    0 < dictGetNat (get_plan_limits tier) "voicemail_transcriptions_per_month" 1 := by
  have hc := get_plan_limits_cases tier
  refine ⟨?_, ?_, ?_, ?_, ?_, ?_⟩
  · intro h
    simp [calculate_usage_percentage, h]
  · intro h
    have hq : (limit : ℚ) ≠ 0 := by
      exact_mod_cast h
    field_simp [calculate_usage_percentage, h]
  all_goals (rcases hc with h | h | h | h | h <;> rw [h] <;> decide)

/-- Claim C10 witness: the totality theorem applied at limit 0 and at the
trial sms limit, and for an unknown tier string. -/
theorem claim_C10_percentage_total_witness :
    calculate_usage_percentage 7 0 = 0 ∧
    calculate_usage_percentage 35 50 * (50 : ℚ) = (35 : ℚ) * 100 ∧
    0 < dictGetNat (get_plan_limits "no_such_tier") "sms_per_month" 1 :=
  ⟨(claim_C10_percentage_total 7 0 "no_such_tier").1 rfl,
   (claim_C10_percentage_total 35 50 "no_such_tier").2.1 (by decide),
   (claim_C10_percentage_total 35 50 "no_such_tier").2.2.2.1⟩

end EzRealtor

namespace EzRealtor

/-- Claim C1 counterexample: leads is not a metric check_and_increment
tracks — on a trial tenant whose every tracked counter stands at 49, the call
checkAndIncrement("leads", 2) is accepted, not rejected, and mutates nothing
(the trial leads_per_month limit in the catalog is 50). -/
theorem claim_C1_counterexample :
    (check_and_increment 0 agentAt49 "leads" 2).allowed = true ∧
    (check_and_increment 0 agentAt49 "leads" 2).agent = agentAt49 ∧
    get_limit_for_metric "trial" "leads_per_month" = 50 := by
  have h : should_send_warning (calculate_usage_percentage 2 50) 0 =
      (false, "none") := by
    norm_num [calculate_usage_percentage, should_send_warning]
  refine ⟨by decide, ?_, by decide⟩
  simp [check_and_increment, check_and_reset_usage, get_current_usage,
    increment_usage, get_limit_for_metric, get_plan_limits, PLAN_LIMITS,
    trialLimits, dictGetNat, get_last_warning_percentage, agentAt49, h,
    List.find?]

/-- Claim C1 (amended): for the four metrics check_and_increment tracks, the
limit guard is exact — the call is rejected precisely when current + amount
would exceed the plan limit, a rejected call performs no mutation beyond the
lazy rollover, and a successful call leaves the counter at current + amount,
never above the limit. -/
theorem claim_C1_limit_invariant (now : Int) (a : Agent) (metric : String)
    (amount : Nat) (hm : metric ∈ tracked_metrics) :
    ((check_and_increment now a metric amount).allowed = false ↔
      get_limit_for_metric a.plan_tier (metric ++ "_per_month") <
        get_current_usage (check_and_reset_usage now a) metric + amount) ∧
    ((check_and_increment now a metric amount).allowed = false →
      (check_and_increment now a metric amount).agent =
        check_and_reset_usage now a) ∧
    ((check_and_increment now a metric amount).allowed = true →
      get_current_usage (check_and_increment now a metric amount).agent metric =
        get_current_usage (check_and_reset_usage now a) metric + amount ∧
      get_current_usage (check_and_increment now a metric amount).agent metric ≤
        get_limit_for_metric a.plan_tier (metric ++ "_per_month")) := by
  have hpt : (check_and_reset_usage now a).plan_tier = a.plan_tier :=
    check_and_reset_usage_plan_tier now a
  simp only [tracked_metrics, List.mem_cons, List.not_mem_nil, or_false] at hm
  rcases hm with rfl | rfl | rfl | rfl <;>
    (simp only [check_and_increment, hpt]
     split
     next hlt =>
       exact ⟨iff_of_true rfl hlt, fun _ => rfl, fun h => Bool.noConfusion h⟩
     next hge =>
       refine ⟨iff_of_false (fun h => Bool.noConfusion h) hge,
         fun h => Bool.noConfusion h, fun _ => ⟨?_, ?_⟩⟩
       · split <;> rfl
       · split <;> exact Nat.le_of_not_lt hge)

/-- Claim C1 witness: the amended invariant applied to the scenario closest to
the spec's, with the trial sms limit of 50 (the same numeric limit the spec
gives for leads): every counter at 49, checkAndIncrement("sms", 2) is
rejected and the state is unchanged. -/
theorem claim_C1_limit_invariant_witness :
    ("sms" ∈ tracked_metrics) ∧
    (check_and_increment 0 agentAt49 "sms" 2).allowed = false ∧
    (check_and_increment 0 agentAt49 "sms" 2).agent =
      check_and_reset_usage 0 agentAt49 ∧
    check_and_reset_usage 0 agentAt49 = agentAt49 ∧
    agentAt49.usage_sms_count_month = 49 := by
  have h := claim_C1_limit_invariant 0 agentAt49 "sms" 2 (by decide)
  have hrej : (check_and_increment 0 agentAt49 "sms" 2).allowed = false :=
    h.1.mpr (by decide)
  exact ⟨by decide, hrej, h.2.1 hrej, by decide, by decide⟩

/-- Claim C5 counterexample: two consecutive successful sms increments of a
trial tenant inside one period (the rollover date is untouched) both emit a
critical warning — at 96% and again at 98% ten seconds later — so the 95%
threshold fires more than once per period. -/
theorem claim_C5_counterexample :
    (check_and_increment 0 agentSms47 "sms" 1).warned = true ∧
    (check_and_increment 0 agentSms47 "sms" 1).warning_level = "critical" ∧
    (check_and_increment 10
      (check_and_increment 0 agentSms47 "sms" 1).agent "sms" 1).warned = true ∧
    (check_and_increment 10
      (check_and_increment 0 agentSms47 "sms" 1).agent "sms" 1).warning_level =
      "critical" ∧
    (check_and_increment 10
      (check_and_increment 0 agentSms47 "sms" 1).agent "sms"
        1).agent.usage_reset_date = agentSms47.usage_reset_date := by
  have h1 : calculate_usage_percentage 48 50 = 96 := by
    norm_num [calculate_usage_percentage]
  have h2 : calculate_usage_percentage 49 50 = 98 := by
    norm_num [calculate_usage_percentage]
  have h3 : should_send_warning 96 0 = (true, "critical") := by
    norm_num [should_send_warning]
  have h4 : should_send_warning 98 70 = (true, "critical") := by
    norm_num [should_send_warning]
  simp [check_and_increment, check_and_reset_usage, get_current_usage,
    increment_usage, get_limit_for_metric, get_plan_limits, PLAN_LIMITS,
    trialLimits, dictGetNat, get_last_warning_percentage, agentSms47,
    h1, h2, h3, h4, List.find?]

/-- Claim C5 (amended): the warning gate compares the new percentage against
_get_last_warning_percentage, which is 70 when any warning was sent within
the past hour and 0 otherwise, not against a recorded per-metric threshold
watermark; consequently every successful increment that lands at or above 95%
while the last warning is under an hour old fires a critical warning again. -/
theorem claim_C5_warning_gate (now : Int) (a : Agent) (metric : String)
    (amount : Nat) (t : Int)
    (hok : get_current_usage (check_and_reset_usage now a) metric + amount ≤
      get_limit_for_metric a.plan_tier (metric ++ "_per_month"))
    (hw : (check_and_reset_usage now a).usage_last_warning_sent = some t)
    (ht : now - t < 3600)
    (hp : 95 ≤ calculate_usage_percentage
      (get_current_usage (check_and_reset_usage now a) metric + amount)
      (get_limit_for_metric a.plan_tier (metric ++ "_per_month"))) :
    (check_and_increment now a metric amount).warned = true ∧
    (check_and_increment now a metric amount).warning_level = "critical" := by
  have hpt : (check_and_reset_usage now a).plan_tier = a.plan_tier :=
    check_and_reset_usage_plan_tier now a
  have hlw : (increment_usage (check_and_reset_usage now a) metric
      amount).usage_last_warning_sent = some t := by
    rw [increment_usage_last_warning]
    exact hw
  have hlast : get_last_warning_percentage now
      (increment_usage (check_and_reset_usage now a) metric amount) = 70 := by
    simp [get_last_warning_percentage, hlw, ht]
  have hsw : should_send_warning (calculate_usage_percentage
      (get_current_usage (check_and_reset_usage now a) metric + amount)
      (get_limit_for_metric a.plan_tier (metric ++ "_per_month"))) 70 =
      (true, "critical") := by
    unfold should_send_warning
    rw [if_pos ⟨hp, by norm_num⟩]
  simp only [check_and_increment, hpt]
  rw [if_neg (by omega)]
  simp [hlast, hsw]

/-- Claim C5 witness: the amended warning-gate theorem applied to a trial
tenant at 48 of 50 sms whose last warning was recorded ten seconds earlier:
the next increment lands at 98% and fires critical again. -/
theorem claim_C5_warning_gate_witness :
    (get_current_usage (check_and_reset_usage 10 agentSms48Warned) "sms" + 1 ≤
      get_limit_for_metric agentSms48Warned.plan_tier ("sms" ++ "_per_month")) ∧
    (check_and_reset_usage 10 agentSms48Warned).usage_last_warning_sent =
      some 0 ∧
    ((10 : Int) - 0 < 3600) ∧
    95 ≤ calculate_usage_percentage
      (get_current_usage (check_and_reset_usage 10 agentSms48Warned) "sms" + 1)
      (get_limit_for_metric agentSms48Warned.plan_tier ("sms" ++ "_per_month")) ∧
    (check_and_increment 10 agentSms48Warned "sms" 1).warned = true ∧
    (check_and_increment 10 agentSms48Warned "sms" 1).warning_level =
      "critical" := by
  have hp : 95 ≤ calculate_usage_percentage
      (get_current_usage (check_and_reset_usage 10 agentSms48Warned) "sms" + 1)
      (get_limit_for_metric agentSms48Warned.plan_tier
        ("sms" ++ "_per_month")) := by
    have ec : get_current_usage (check_and_reset_usage 10 agentSms48Warned)
        "sms" = 48 := by decide
    have el : get_limit_for_metric agentSms48Warned.plan_tier
        ("sms" ++ "_per_month") = 50 := by decide
    rw [ec, el]
    norm_num [calculate_usage_percentage]
  have h := claim_C5_warning_gate 10 agentSms48Warned "sms" 1 0 (by decide)
    (by decide) (by decide) hp
  exact ⟨by decide, by decide, by decide, hp, h.1, h.2⟩

end EzRealtor

namespace EzRealtor

/-- find? on a one-row table returns the row when the predicate holds. -/
theorem find?_singleton_pos (p : Agent → Bool) (a : Agent) (h : p a = true) :
    List.find? p [a] = some a := by
  simp [List.find?, h]

/-- update_first on a one-row table rewrites the row when the predicate
holds. -/
theorem update_first_singleton (p : Agent → Bool) (f : Agent → Agent)
    (a : Agent) (h : p a = true) : update_first p f [a] = [f a] := by
  simp [update_first, h]

/-- auto_provision_phone_number either hands the agent back untouched or adds
exactly the five twilio fields of a freshly purchased number. -/
theorem auto_provision_cases (env : ProvisionEnv) (now : Int) (a : Agent) :
    (auto_provision_phone_number env now a).agent = a ∨
    ∃ n, (auto_provision_phone_number env now a).agent =
      { a with
          twilio_phone_number := some n
          twilio_phone_sid := some (String.append "sid_" n)
          twilio_phone_status := some "active"
          twilio_phone_activated_at := some now
          twilio_phone_friendly_name :=
            some (String.append "EZRealtor - " a.name) } := by
  unfold auto_provision_phone_number
  split
  · left
    rfl
  · split
    · left
      rfl
    · split
      · left
        rfl
      · split
        · right
          exact ⟨_, rfl⟩
        · left
          rfl

/-- Provisioning touches only the twilio fields: tier, status, billing
references, period end and email are preserved. -/
theorem auto_provision_agent_fields (env : ProvisionEnv) (now : Int)
    (x : Agent) :
    (auto_provision_phone_number env now x).agent.plan_tier = x.plan_tier ∧
    (auto_provision_phone_number env now x).agent.status = x.status ∧
    (auto_provision_phone_number env now x).agent.stripe_customer_id =
      x.stripe_customer_id ∧
    (auto_provision_phone_number env now x).agent.stripe_subscription_id =
      x.stripe_subscription_id ∧
    (auto_provision_phone_number env now x).agent.subscription_end_date =
      x.subscription_end_date ∧
    (auto_provision_phone_number env now x).agent.email = x.email := by
  rcases auto_provision_cases env now x with h | ⟨n, h⟩ <;> rw [h] <;>
    exact ⟨rfl, rfl, rfl, rfl, rfl, rfl⟩

/-- Provisioning an agent that already holds a number is a pure skip. -/
theorem auto_provision_agent_skip (env : ProvisionEnv) (now : Int) (y : Agent)
    (m : String) (h : y.twilio_phone_number = some m) :
    (auto_provision_phone_number env now y).agent = y := by
  simp [auto_provision_phone_number, h]

/-- Running provisioning twice in the same environment leaves the state of
the first run unchanged. -/
theorem auto_provision_idem (env : ProvisionEnv) (now : Int) (x : Agent) :
    (auto_provision_phone_number env now
      (auto_provision_phone_number env now x).agent).agent =
      (auto_provision_phone_number env now x).agent := by
  cases hx : x.twilio_phone_number with
  | some m =>
    have h1 : (auto_provision_phone_number env now x).agent = x :=
      auto_provision_agent_skip env now x m hx
    rw [h1]
    exact h1
  | none =>
    cases ha : env.available_numbers with
    | nil =>
      have h1 : (auto_provision_phone_number env now x).agent = x := by
        simp [auto_provision_phone_number, hx, ha]
      rw [h1]
      exact h1
    | cons n rest =>
      by_cases hpu : env.purchase_ok = false
      · have h1 : (auto_provision_phone_number env now x).agent = x := by
          simp [auto_provision_phone_number, hx, ha, hpu]
        rw [h1]
        exact h1
      · cases hco : env.commit_ok with
        | false =>
          have h1 : (auto_provision_phone_number env now x).agent = x := by
            simp [auto_provision_phone_number, hx, ha, hpu, hco]
          rw [h1]
          exact h1
        | true =>
          have hph : (auto_provision_phone_number env now
              x).agent.twilio_phone_number = some n := by
            simp [auto_provision_phone_number, hx, ha, hpu, hco]
          exact auto_provision_agent_skip env now _ n hph

/-- Re-assigning fields an agent already carries is the identity. -/
theorem agent_update_eq_self (x : Agent) (sid : Option String)
    (tier stat : String) (dte : Option Int)
    (h1 : x.stripe_subscription_id = sid) (h2 : x.plan_tier = tier)
    (h3 : x.status = stat) (h4 : x.subscription_end_date = dte) :
    ({ x with
        stripe_subscription_id := sid
        plan_tier := tier
        status := stat
        subscription_end_date := dte } : Agent) = x := by
  cases x
  subst h1 h2 h3 h4
  rfl

/-- Field values of created_assign: the four assigned fields carry the
event's data, status is active, and the customer reference is untouched. -/
theorem created_assign_fields (env : ProvisionEnv) (now : Int)
    (e : BillingEvent) (x : Agent) :
    (created_assign env now e x).stripe_subscription_id = some e.subData.id ∧
    (created_assign env now e x).plan_tier =
      get_plan_from_price_id e.subData.price_id ∧
    (created_assign env now e x).status = "active" ∧
    (created_assign env now e x).subscription_end_date =
      some e.subData.current_period_end ∧
    (created_assign env now e x).stripe_customer_id = x.stripe_customer_id := by
  unfold created_assign
  split
  · obtain ⟨f1, f2, f3, f4, f5, f6⟩ :=
      auto_provision_agent_fields env now (created_update e x)
    exact ⟨f4.trans rfl, f1.trans rfl, f2.trans rfl, f5.trans rfl,
      f3.trans rfl⟩
  · exact ⟨rfl, rfl, rfl, rfl, rfl⟩

/-- created_assign is idempotent on the tenant record: a second application
re-assigns identical values and provisioning skips or repeats identically. -/
theorem created_assign_idem (env : ProvisionEnv) (now : Int)
    (e : BillingEvent) (x : Agent) :
    created_assign env now e (created_assign env now e x) =
      created_assign env now e x := by
  have hf := created_assign_fields env now e x
  have h1 : created_update e (created_assign env now e x) =
      created_assign env now e x := by
    unfold created_update
    exact agent_update_eq_self _ _ _ _ _ hf.1 hf.2.1 hf.2.2.1 hf.2.2.2.1
  show (if phone_included_tiers.contains
      (get_plan_from_price_id e.subData.price_id) then
    (auto_provision_phone_number env now
      (created_update e (created_assign env now e x))).agent
  else created_update e (created_assign env now e x)) =
    created_assign env now e x
  rw [h1]
  by_cases hc : phone_included_tiers.contains
      (get_plan_from_price_id e.subData.price_id) = true
  · rw [if_pos hc]
    have h2 : created_assign env now e x =
        (auto_provision_phone_number env now (created_update e x)).agent := by
      unfold created_assign
      rw [if_pos hc]
    rw [h2]
    exact auto_provision_idem env now (created_update e x)
  · rw [if_neg hc]

/-- Field values of updated_assign: tier from the price id and the mapped
status; the subscription reference is untouched. -/
theorem updated_assign_fields (env : ProvisionEnv) (now : Int)
    (e : BillingEvent) (x : Agent) :
    (updated_assign env now e x).plan_tier =
      get_plan_from_price_id e.subData.price_id ∧
    (updated_assign env now e x).status =
      subscription_status_to_agent_status e.subData.sub_status x.status ∧
    (updated_assign env now e x).stripe_subscription_id =
      x.stripe_subscription_id := by
  unfold updated_assign
  split
  · obtain ⟨f1, f2, f3, f4, f5, f6⟩ :=
      auto_provision_agent_fields env now (updated_update e x)
    exact ⟨f1.trans rfl, f2.trans rfl, f4.trans rfl⟩
  · exact ⟨rfl, rfl, rfl⟩

/-- handle_subscription_created on a one-row table whose row matches the
customer reference. -/
theorem handle_subscription_created_singleton (env : ProvisionEnv) (now : Int)
    (e : BillingEvent) (a : Agent)
    (h : a.stripe_customer_id = some e.subData.customer) :
    handle_subscription_created env now e [a] =
      { db := [created_assign env now e a]
        result := { status := "success", action := "subscription_created" }
        mutated := true } := by
  have hp : (a.stripe_customer_id == some e.subData.customer) = true := by
    simp [h]
  simp only [handle_subscription_created,
    find?_singleton_pos (fun x => x.stripe_customer_id ==
      some e.subData.customer) a hp,
    update_first_singleton (fun x => x.stripe_customer_id ==
      some e.subData.customer) (created_assign env now e) a hp]

/-- handle_subscription_updated on a one-row table whose row matches the
subscription reference. -/
theorem handle_subscription_updated_singleton (env : ProvisionEnv) (now : Int)
    (e : BillingEvent) (a : Agent)
    (h : a.stripe_subscription_id = some e.subData.id) :
    handle_subscription_updated env now e [a] =
      { db := [updated_assign env now e a]
        result := { status := "success", action := "subscription_updated" }
        mutated := true } := by
  have hp : (a.stripe_subscription_id == some e.subData.id) = true := by
    simp [h]
  simp only [handle_subscription_updated,
    find?_singleton_pos (fun x => x.stripe_subscription_id ==
      some e.subData.id) a hp,
    update_first_singleton (fun x => x.stripe_subscription_id ==
      some e.subData.id) (updated_assign env now e) a hp]

end EzRealtor

namespace EzRealtor

/-- Claim C4: the endpoint acknowledges with HTTP 200 exactly the requests
whose signature header is present and verifies and whose payload parses —
independently of the provisioning environment, the tenant table and the
internal reconciliation outcome — and reports an authentication failure
exactly when the signature is missing or cannot be verified. -/
theorem claim_C4_ack_iff_verified (env : ProvisionEnv) (now : Int)
    (req : WebhookRequest) (db : List Agent) :
    (stripe_webhook env now req db).1.isOk =
      (req.has_signature && req.signature_valid && req.payload_parses) ∧
    (stripe_webhook env now req db).1.isAuthFailure =
      !(req.has_signature && req.signature_valid) := by
  rcases req with ⟨hs, sv, pp, e⟩
  cases hs <;> cases sv <;> cases pp <;>
    simp [stripe_webhook, WebhookResponse.isOk, WebhookResponse.isAuthFailure]

/-- Claim C7 counterexample: with one candidate number, a successful purchase
and a failing commit, _auto_provision_phone_number reports an error with the
number purchased but never released, and the tenant record unchanged — the
provider retains a resource no tenant record references. -/
theorem claim_C7_counterexample :
    (auto_provision_phone_number envCommitFails 0 agentCus1).purchased =
      true ∧
    (auto_provision_phone_number envCommitFails 0 agentCus1).released =
      false ∧
    (auto_provision_phone_number envCommitFails 0 agentCus1).status =
      "error" ∧
    (auto_provision_phone_number envCommitFails 0 agentCus1).agent =
      agentCus1 := by
  decide

/-- Claim C7 (amended): whenever the provider search yields a candidate, the
purchase succeeds, and the subsequent local commit fails, the handler swallows
the exception into an error result without issuing any compensating release
and without persisting the assignment. -/
theorem claim_C7_leak_no_release (env : ProvisionEnv) (now : Int) (a : Agent)
    (n : String) (rest : List String)
    (hphone : a.twilio_phone_number = none)
    (havail : env.available_numbers = n :: rest)
    (hpurchase : env.purchase_ok = true)
    (hcommit : env.commit_ok = false) :
    (auto_provision_phone_number env now a).purchased = true ∧
    (auto_provision_phone_number env now a).released = false ∧
    (auto_provision_phone_number env now a).status = "error" ∧
    (auto_provision_phone_number env now a).agent = a := by
  simp [auto_provision_phone_number, hphone, havail, hpurchase, hcommit]

/-- Claim C7 witness: the leak theorem applied to agentCus1 in the
commit-failing environment. -/
theorem claim_C7_leak_no_release_witness :
    agentCus1.twilio_phone_number = none ∧
    envCommitFails.available_numbers = ["+15550001111"] ∧
    envCommitFails.purchase_ok = true ∧
    envCommitFails.commit_ok = false ∧
    ((auto_provision_phone_number envCommitFails 7 agentCus1).purchased =
       true ∧
     (auto_provision_phone_number envCommitFails 7 agentCus1).released =
       false ∧
     (auto_provision_phone_number envCommitFails 7 agentCus1).status =
       "error" ∧
     (auto_provision_phone_number envCommitFails 7 agentCus1).agent =
       agentCus1) :=
  ⟨rfl, rfl, rfl, rfl,
   claim_C7_leak_no_release envCommitFails 7 agentCus1 "+15550001111" []
     rfl rfl rfl rfl⟩

/-- Claim C9: an invoice.payment_failed event for a matching subscription sets
the tenant's status to past_due and changes nothing else on the record — in
particular plan_tier is untouched. -/
theorem claim_C9_payment_failed (e : BillingEvent) (a : Agent) (sid : String)
    (hs : e.invData.subscription = some sid)
    (ha : a.stripe_subscription_id = some sid) :
    (handle_payment_failed e [a]).db = [{ a with status := "past_due" }] ∧
    (handle_payment_failed e [a]).result.status = "success" ∧
    (handle_payment_failed e [a]).mutated = true ∧
    ({ a with status := "past_due" } : Agent).plan_tier = a.plan_tier := by
  have hp : (a.stripe_subscription_id == some sid) = true := by
    simp [ha]
  simp only [handle_payment_failed, hs,
    find?_singleton_pos (fun x => x.stripe_subscription_id == some sid) a hp,
    update_first_singleton (fun x => x.stripe_subscription_id == some sid)
      (fun x => { x with status := "past_due" }) a hp]
  refine ⟨?_, ?_, ?_, ?_⟩ <;> trivial

/-- Claim C9 witness: the payment-failed theorem applied to the growth-tier
tenant holding subscription sub_1; the plan tier stays growth. -/
theorem claim_C9_payment_failed_witness :
    evtPayFailed.invData.subscription = some "sub_1" ∧
    agentGrowthSub.stripe_subscription_id = some "sub_1" ∧
    (handle_payment_failed evtPayFailed [agentGrowthSub]).db =
      [{ agentGrowthSub with status := "past_due" }] ∧
    ({ agentGrowthSub with status := "past_due" } : Agent).plan_tier =
      "growth" := by
  have h := claim_C9_payment_failed evtPayFailed agentGrowthSub "sub_1" rfl rfl
  exact ⟨rfl, rfl, h.1, by decide⟩

/-- Claim C8 counterexample: a subscription-created event whose price id
resolves to the free tier leaves the existing tenant with status "active",
not "trialing" — no Trialing value exists in AgentStatus. -/
theorem claim_C8_counterexample :
    ((handle_subscription_created envNoNumbers 0 evtCreatedTrial
      [agentCus1]).db.head?.map Agent.status) = some "active" ∧
    some "active" ≠ some "trialing" ∧
    get_plan_from_price_id "STRIPE_FreeTrial_PRICE_ID" = "trial" := by
  decide

/-- Claim C8 (amended): applying a subscription-created event to an existing
tenant always sets status "active", whatever tier the event's price id
resolves to; the tier itself is stored alongside. -/
theorem claim_C8_created_status (env : ProvisionEnv) (now : Int)
    (e : BillingEvent) (a : Agent)
    (h : a.stripe_customer_id = some e.subData.customer) :
    (handle_subscription_created env now e [a]).db =
      [created_assign env now e a] ∧
    (created_assign env now e a).status = "active" ∧
    (created_assign env now e a).plan_tier =
      get_plan_from_price_id e.subData.price_id := by
  refine ⟨?_, (created_assign_fields env now e a).2.2.1,
    (created_assign_fields env now e a).2.1⟩
  rw [handle_subscription_created_singleton env now e a h]

/-- Claim C8 witness: the always-active theorem applied to the free-trial
event on agentCus1. -/
theorem claim_C8_created_status_witness :
    agentCus1.stripe_customer_id = some "cus_1" ∧
    evtCreatedTrial.subData.customer = "cus_1" ∧
    ((handle_subscription_created envNoNumbers 0 evtCreatedTrial
       [agentCus1]).db =
       [created_assign envNoNumbers 0 evtCreatedTrial agentCus1] ∧
     (created_assign envNoNumbers 0 evtCreatedTrial agentCus1).status =
       "active" ∧
     (created_assign envNoNumbers 0 evtCreatedTrial agentCus1).plan_tier =
       get_plan_from_price_id evtCreatedTrial.subData.price_id) :=
  ⟨rfl, rfl,
   claim_C8_created_status envNoNumbers 0 evtCreatedTrial agentCus1 rfl⟩

/-- Claim C3 counterexample: after the growth-price update (nominal timestamp
2000) is applied, replaying the stale starter-price update (nominal timestamp
1000, strictly older) overwrites the tenant's plan tier from growth back to
starter — the state mutation is not skipped for older events. -/
theorem claim_C3_counterexample :
    evtUpdStale.created < evtUpdGrowth.created ∧
    ((handle_subscription_updated envNoNumbers 0 evtUpdGrowth
      [agentGrowthSub]).db.head?.map Agent.plan_tier) = some "growth" ∧
    ((handle_subscription_updated envNoNumbers 0 evtUpdStale
      (handle_subscription_updated envNoNumbers 0 evtUpdGrowth
        [agentGrowthSub]).db).db.head?.map Agent.plan_tier) =
      some "starter" := by
  decide

/-- Claim C3 (amended): handle_subscription_updated carries no ordering guard
and the tenant record stores no last-applied-event time; for every event whose
subscription reference matches — whatever its nominal timestamp, in particular
one older than any previously applied event — the mutation is applied
unconditionally: the stored tier becomes the event's resolved tier and the
status follows the event's subscription status. -/
theorem claim_C3_stale_event_applies (env : ProvisionEnv) (now : Int)
    (e : BillingEvent) (a : Agent)
    (h : a.stripe_subscription_id = some e.subData.id) :
    (handle_subscription_updated env now e [a]).db =
      [updated_assign env now e a] ∧
    (updated_assign env now e a).plan_tier =
      get_plan_from_price_id e.subData.price_id ∧
    (updated_assign env now e a).status =
      subscription_status_to_agent_status e.subData.sub_status a.status := by
  refine ⟨?_, (updated_assign_fields env now e a).1,
    (updated_assign_fields env now e a).2.1⟩
  rw [handle_subscription_updated_singleton env now e a h]

/-- Claim C3 witness: the unconditional-update theorem applied to the stale
starter-price event on the growth-tier tenant — the tier is overwritten to
starter although the event is older. -/
theorem claim_C3_stale_event_applies_witness :
    agentGrowthSub.stripe_subscription_id = some "sub_1" ∧
    evtUpdStale.subData.id = "sub_1" ∧
    evtUpdStale.created < evtUpdGrowth.created ∧
    ((handle_subscription_updated envNoNumbers 0 evtUpdStale
       [agentGrowthSub]).db =
       [updated_assign envNoNumbers 0 evtUpdStale agentGrowthSub] ∧
     (updated_assign envNoNumbers 0 evtUpdStale agentGrowthSub).plan_tier =
       get_plan_from_price_id evtUpdStale.subData.price_id ∧
     (updated_assign envNoNumbers 0 evtUpdStale agentGrowthSub).status =
       subscription_status_to_agent_status evtUpdStale.subData.sub_status
         agentGrowthSub.status) :=
  ⟨rfl, rfl, by decide,
   claim_C3_stale_event_applies envNoNumbers 0 evtUpdStale agentGrowthSub rfl⟩

/-- Claim C2 counterexample: delivering the same subscription-created event id
twice executes the tenant-state commit both times — the second delivery is not
suppressed by any ledger (none exists), it is merely acknowledged as success. -/
theorem claim_C2_counterexample :
    (handle_event envNoNumbers 0 evtCreatedTrial [agentCus1]).mutated = true ∧
    (handle_event envNoNumbers 0 evtCreatedTrial
      (handle_event envNoNumbers 0 evtCreatedTrial [agentCus1]).db).mutated =
      true ∧
    (handle_event envNoNumbers 0 evtCreatedTrial
      (handle_event envNoNumbers 0 evtCreatedTrial
        [agentCus1]).db).result.status = "success" := by
  decide

/-- Claim C2 (amended): handle_event consults no idempotency ledger, so
replaying a subscription-created event re-executes its state mutation (the
commit runs on both deliveries); the replay is acknowledged as success and
leaves the tenant table exactly as after the first delivery, because the
transition assigns absolute values and provisioning skips once a number is
held. -/
theorem claim_C2_replay_recommits (env : ProvisionEnv) (now : Int)
    (e : BillingEvent) (a : Agent)
    (htype : e.type = "customer.subscription.created")
    (h : a.stripe_customer_id = some e.subData.customer) :
    (handle_event env now e [a]).mutated = true ∧
    (handle_event env now e (handle_event env now e [a]).db).mutated = true ∧
    (handle_event env now e (handle_event env now e [a]).db).db =
      (handle_event env now e [a]).db ∧
    (handle_event env now e (handle_event env now e [a]).db).result.status =
      "success" := by
  have hroute : ∀ db, handle_event env now e db =
      handle_subscription_created env now e db := by
    intro db
    simp [handle_event, htype]
  have hcust : (created_assign env now e a).stripe_customer_id =
      some e.subData.customer := by
    rw [(created_assign_fields env now e a).2.2.2.2]
    exact h
  have h1 := handle_subscription_created_singleton env now e a h
  have h2 := handle_subscription_created_singleton env now e
    (created_assign env now e a) hcust
  simp only [hroute, h1, h2, created_assign_idem]
  refine ⟨?_, ?_, ?_, ?_⟩ <;> trivial

/-- Claim C2 witness: the replay theorem applied to the free-trial
subscription-created event delivered twice to agentCus1. -/
theorem claim_C2_replay_recommits_witness :
    evtCreatedTrial.type = "customer.subscription.created" ∧
    agentCus1.stripe_customer_id = some "cus_1" ∧
    ((handle_event envNoNumbers 3 evtCreatedTrial [agentCus1]).mutated =
       true ∧
     (handle_event envNoNumbers 3 evtCreatedTrial
       (handle_event envNoNumbers 3 evtCreatedTrial [agentCus1]).db).mutated =
       true ∧
     (handle_event envNoNumbers 3 evtCreatedTrial
       (handle_event envNoNumbers 3 evtCreatedTrial [agentCus1]).db).db =
       (handle_event envNoNumbers 3 evtCreatedTrial [agentCus1]).db ∧
     (handle_event envNoNumbers 3 evtCreatedTrial
       (handle_event envNoNumbers 3 evtCreatedTrial
         [agentCus1]).db).result.status = "success") :=
  ⟨rfl, rfl,
   claim_C2_replay_recommits envNoNumbers 3 evtCreatedTrial agentCus1 rfl rfl⟩

end EzRealtor
